import Mathlib

/-!
Verification of the FFI error-boundary and callback-dispatch pipeline of
`ffi-utils` (`src/macros.rs`).

The Rust source implements the pipeline as declarative macros; each macro is a
pure expression over its inputs apart from one `log::debug!` call, so we embed
every macro as a Lean function that additionally returns the list of log lines
it emits (writer style).  Callback invocation is observed by returning the list
of `FfiResult` values passed to the callback.

Error codes are Rust `i32` values; no arithmetic is ever performed on them
(they are produced by the `ErrorCode` capability and passed through), so we
model them as `Int`.
-/

/-- A domain error as the pipeline sees it: the `ErrorCode` capability
(`error_code()`), the `Display` rendering (`to_string()`) and the `Debug`
rendering (`format!` with the debug formatter).  The `ErrorCode` trait itself
is declared outside the provided sources; here an error is simply a record of
the three observations the macros in `src/macros.rs` make of it. -/
structure DomainError where
  error_code : Int
  display : String
  debug : String
deriving DecidableEq, Repr

/-- The `NativeResult` record (`$crate::result::NativeResult`): an owned
`error_code: i32` with an optional owned description string. -/
structure NativeResult where
  error_code : Int
  description : Option String
deriving DecidableEq, Repr

/-- The `FfiResult` record (`$crate::result::FfiResult`): an `error_code: i32` and
a raw pointer to a nul-terminated byte buffer.  The pointer is modelled by the
byte sequence it points to, `none` standing for the null pointer. -/
structure FfiResult where
  error_code : Int
  description : Option (List Nat)
deriving DecidableEq, Repr

/-- UTF-8 encoding of one character, as a list of byte values. -/
def utf8EncodeCharNat (c : Char) : List Nat :=
  let n := c.toNat
  if n < 0x80 then [n]
  else if n < 0x800 then
    [0xC0 ||| (n >>> 6), 0x80 ||| (n &&& 0x3F)]
  else if n < 0x10000 then
    [0xE0 ||| (n >>> 12), 0x80 ||| ((n >>> 6) &&& 0x3F), 0x80 ||| (n &&& 0x3F)]
  else
    [0xF0 ||| (n >>> 18), 0x80 ||| ((n >>> 12) &&& 0x3F),
     0x80 ||| ((n >>> 6) &&& 0x3F), 0x80 ||| (n &&& 0x3F)]

/-- UTF-8 byte sequence of a Rust `String`. -/
def utf8Bytes (s : String) : List Nat :=
  s.toList.flatMap utf8EncodeCharNat

/-- Embedding of `ffi_error_code!` (`src/macros.rs:60-72`): reads `err.error_code()`,
formats the error with the debug formatter, emits one
`log::debug!("**ERRNO: {}** {}", err_code, err_str)` line, and yields the
code.  Returns `(code, emitted log lines)`. -/
def ffi_error_code (e : DomainError) : Int × List String :=
  (e.error_code, ["**ERRNO: " ++ toString e.error_code ++ "** " ++ e.debug])

/-- Embedding of `ffi_error!` (`src/macros.rs:21-27`): the code from `ffi_error_code!`
paired with the `Display` rendering of the error.  Returns
`((code, description), emitted log lines)`. -/
def ffi_error (e : DomainError) : (Int × String) × List String :=
  let c := ffi_error_code e
  ((c.1, e.display), c.2)

/-- Embedding of `ffi_result!` (`src/macros.rs:34-41`): `Ok(_)` yields
`(0, String::default())` with no log output; `Err(error)` yields
`ffi_error!(error)`. -/
def ffi_result (r : Except DomainError α) : (Int × String) × List String :=
  match r with
  | .ok _ => ((0, ""), [])
  | .error e => ffi_error e

/-- Embedding of `ffi_result_code!` (`src/macros.rs:47-54`): `Ok(_)` yields `0` with no log
output; `Err(error)` yields `ffi_error_code!(error)`. -/
def ffi_result_code (r : Except DomainError α) : Int × List String :=
  match r with
  | .ok _ => (0, [])
  | .error e => ffi_error_code e

/-- The `NativeResult` literally constructed by `call_result_cb!`
(`src/macros.rs:85-89`): `NativeResult { error_code, description:
Some(description) }` where `(error_code, description) = ffi_result!($result)`.
Note the description is wrapped in `Some` on both branches. -/
def normalizedNative (r : Except DomainError α) : NativeResult :=
  let p := (ffi_result r).1
  { error_code := p.1, description := some p.2 }

/-- Modelled from the spec: `NativeResult::into_repr_c`, the C-Representation
Converter `to_c_repr`, whose definition lives in `$crate::result`, outside the
provided sources.  Per the spec: an absent description becomes a null pointer;
a present description is rendered as a nul-terminated byte buffer, which fails
exactly when the string contains an embedded nul byte (Rust
`CString::new`). -/
def NativeResult.into_repr_c (n : NativeResult) : Except Unit FfiResult :=
  match n.description with
  | none => .ok { error_code := n.error_code, description := none }
  | some s =>
    if 0 ∈ utf8Bytes s then .error ()
    else .ok { error_code := n.error_code, description := some (utf8Bytes s ++ [0]) }

/-- The byte-string literal used on the conversion-failure branch of
`call_result_cb!` (`src/macros.rs:97`):
`b"Could not convert error description into CString\x00"`.  Every character of
the literal is ASCII, so each byte is the character code, followed by the
explicit `\x00` byte. -/
def fallbackBytes : List Nat :=
  ("Could not convert error description into CString".toList.map Char.toNat) ++ [0]

/-- Observable behaviour of one dispatcher call: the `FfiResult` values passed
to the callback, in order, and the log lines emitted. -/
structure DispatchTrace where
  calls : List FfiResult
  log : List String
deriving DecidableEq, Repr

/-- Embedding of `call_result_cb!` (`src/macros.rs:78-104`): normalize the result, build
`NativeResult { error_code, description: Some(description) }`, convert it with
`into_repr_c`; on `Ok(res)` invoke the callback with `res`, on `Err(_)` invoke
it with the fallback `FfiResult { error_code, description: b"Could not convert
error description into CString\x00" }`. -/
def call_result_cb (r : Except DomainError α) : DispatchTrace :=
  let n := ffi_result r
  let native : NativeResult := { error_code := n.1.1, description := some n.1.2 }
  match native.into_repr_c with
  | .ok res => { calls := [res], log := n.2 }
  | .error _ =>
    { calls := [{ error_code := n.1.1, description := some fallbackBytes }], log := n.2 }

/-- Embedding of `try_cb!` (`src/macros.rs:111-121`): on `Ok(value)` the surrounding
computation continues with the value (modelled as returning `some value`) and
the callback is untouched; on `Err(_)` it runs `call_result_cb!` on the whole
result and makes the caller return `None`. -/
def try_cb (r : Except DomainError α) : Option α × DispatchTrace :=
  match r with
  | .ok v => (some v, { calls := [], log := [] })
  | .error _ => (none, call_result_cb r)

/-- The `TestError::Test` fixture of the source tests: code `-1`, display
"Test Error". -/
def testErr : DomainError :=
  { error_code := -1, display := "Test Error", debug := "Test" }

/-- An error whose display string carries an embedded nul byte, so that
`CString` conversion fails. -/
def nulErr : DomainError :=
  { error_code := -1, display := "bad\x00desc", debug := "NulErr" }

example : (ffi_result (α := Nat) (.ok 7)).1 = (0, "") := by decide
example : ffi_error testErr = ((-1, "Test Error"), ["**ERRNO: -1** Test"]) := by decide
example : 0 ∈ utf8Bytes nulErr.display := by decide

/-- C1 counterexample: the claim says the normalizer maps `Ok(_)` to
`(0, None)` with an absent description, but `ffi_result!` returns
`(0, String::default())` — a present, empty description — and the
`NativeResult` built from it carries `Some("")`, not `None`. -/
theorem c1_normalize_ok_counterexample :
    (ffi_result (α := Nat) (.ok 0)).1 = (0, "") ∧
    (normalizedNative (α := Nat) (.ok 0)).description ≠ none := by
  decide

/-- C1 (amended): for every success, `ffi_result!` returns
`(0, String::default())` with no log output, and the `NativeResult` built by
the pipeline from it is `{ error_code: 0, description: Some("") }` — code zero
with a present but empty description rather than an absent one. -/
theorem c1_normalize_ok_amended (α : Type) (v : α) :
    ffi_result (.ok v) = ((0, ""), []) ∧
    normalizedNative (.ok v) = { error_code := 0, description := some "" } :=
  ⟨rfl, rfl⟩

/-- C2 counterexample: the claimed invariant `error_code == 0` iff the
description is absent fails on the success branch of `call_result_cb!`: the
`NativeResult` built from `Ok(0)` has `error_code = 0` yet its description is
`Some("")`, not `None`. -/
theorem c2_invariant_counterexample :
    (normalizedNative (α := Nat) (.ok 0)).error_code = 0 ∧
    (normalizedNative (α := Nat) (.ok 0)).description ≠ none := by
  decide

/-- C2 (amended): every `NativeResult` constructed by `call_result_cb!` has a
present description — `Some` of the normalized description string — and on the
success branch it is `{ error_code: 0, description: Some("") }`; so the
success case carries an (empty) description rather than none. -/
theorem c2_native_description_amended (α : Type) (r : Except DomainError α) :
    (normalizedNative r).description = some (ffi_result r).1.2 ∧
    ∀ v : α, normalizedNative (.ok v) = { error_code := 0, description := some "" } := by
  refine ⟨?_, fun v => rfl⟩
  cases r <;> rfl

/-- C3 counterexample: on a conversion failure the callback does receive the
original code `-1` with the fixed fallback buffer, but that buffer spells
"Could not convert error description into CString", not the claimed
"Could not convert error description into string". -/
theorem c3_fallback_text_counterexample :
    (call_result_cb (α := Unit) (.error nulErr)).calls =
      [{ error_code := -1, description := some fallbackBytes }] ∧
    fallbackBytes ≠
      ("Could not convert error description into string".toList.map Char.toNat) ++ [0] := by
  decide

/-- C3 (amended): whenever the description of an error cannot be converted
(it contains an embedded nul byte), `call_result_cb!` invokes the callback
with an `FfiResult` whose description is the fixed, statically-allocated
message "Could not convert error description into CString" (nul-terminated)
and whose `error_code` is the original error's code. -/
theorem c3_fallback_amended (e : DomainError) (h : 0 ∈ utf8Bytes e.display) :
    (call_result_cb (α := Unit) (.error e)).calls =
      [{ error_code := e.error_code, description := some fallbackBytes }] ∧
    fallbackBytes =
      ("Could not convert error description into CString".toList.map Char.toNat) ++ [0] := by
  refine ⟨?_, rfl⟩
  simp [call_result_cb, ffi_result, ffi_error, ffi_error_code, NativeResult.into_repr_c, h]

/-- C3 witness: a concrete error whose display contains an embedded nul byte
exercises the fallback path. -/
theorem c3_fallback_amended_witness :
    0 ∈ utf8Bytes nulErr.display ∧
    ((call_result_cb (α := Unit) (.error nulErr)).calls =
      [{ error_code := nulErr.error_code, description := some fallbackBytes }] ∧
     fallbackBytes =
      ("Could not convert error description into CString".toList.map Char.toNat) ++ [0]) :=
  ⟨by decide, c3_fallback_amended nulErr (by decide)⟩

/-- C4: for every input result and every outcome of the C-representation
conversion, one call to `call_result_cb!` invokes the callback exactly once. -/
theorem c4_callback_exactly_once (α : Type) (r : Except DomainError α) :
    (call_result_cb r).calls.length = 1 := by
  simp only [call_result_cb]
  split <;> rfl

/-- C5: for every value `v`, `try_cb!` applied to `Ok(v)` yields `Some(v)`,
invokes the callback zero times and emits no log output. -/
theorem c5_try_cb_ok (α : Type) (v : α) :
    try_cb (.ok v) = (some v, { calls := [], log := [] }) :=
  rfl

/-- C6: for every error `e`, `try_cb!` applied to `Err(e)` yields `None` and
invokes the callback exactly once, with an `FfiResult` carrying
`e.error_code()`. -/
theorem c6_try_cb_err (α : Type) (e : DomainError) :
    (try_cb (α := α) (.error e)).1 = none ∧
    ((try_cb (α := α) (.error e)).2.calls.map FfiResult.error_code) = [e.error_code] := by
  refine ⟨rfl, ?_⟩
  by_cases h : 0 ∈ utf8Bytes e.display <;>
    simp [try_cb, call_result_cb, NativeResult.into_repr_c, ffi_result, ffi_error,
      ffi_error_code, h]

/-- C7: for every error `e` honouring the `ErrorCode` contract (code `0` is
reserved exclusively for success, so `e.error_code() ≠ 0`), the normalizer
maps `Err(e)` to the code `e.error_code()` with description
`Some(e.to_string())`, and the returned code is never `0`. -/
theorem c7_normalize_err (e : DomainError) (h : e.error_code ≠ 0) :
    (ffi_result (α := Unit) (.error e)).1.1 = e.error_code ∧
    (normalizedNative (α := Unit) (.error e)).description = some e.display ∧
    (ffi_result (α := Unit) (.error e)).1.1 ≠ 0 :=
  ⟨rfl, rfl, h⟩

/-- C7 witness: the `TestError::Test` fixture (code `-1`, display
"Test Error") instantiates the normalizer contract. -/
theorem c7_normalize_err_witness :
    testErr.error_code ≠ 0 ∧
    ((ffi_result (α := Unit) (.error testErr)).1.1 = testErr.error_code ∧
     (normalizedNative (α := Unit) (.error testErr)).description = some testErr.display ∧
     (ffi_result (α := Unit) (.error testErr)).1.1 ≠ 0) :=
  ⟨by decide, c7_normalize_err testErr (by decide)⟩

/-- C8: normalization of a failure emits exactly one log line, of the form
"**ERRNO: <code>** <debug-representation>", attached to the normalization
itself; normalization of a success emits none. -/
theorem c8_log_lines (α : Type) (r : Except DomainError α) :
    (ffi_result r).2 =
      match r with
      | .ok _ => []
      | .error e => ["**ERRNO: " ++ toString e.error_code ++ "** " ++ e.debug] := by
  cases r <;> rfl

/-- C9: for every input result, `ffi_result_code!` returns exactly the first
component of `ffi_result!` together with the same log output: `0` and no log
line on `Ok`, `e.error_code()` and the same single log line on `Err(e)`. -/
theorem c9_code_refines_result (α : Type) (r : Except DomainError α) :
    ffi_result_code r = ((ffi_result r).1.1, (ffi_result r).2) := by
  cases r <;> rfl

/-- C10: whenever the C-representation conversion fails, the description
handed to the callback by `call_result_cb!` is the fixed fallback byte buffer
(never a null pointer), and that buffer is nonempty and explicitly
nul-terminated: its last byte is `0`. -/
theorem c10_fallback_nul_terminated (α : Type) (r : Except DomainError α)
    (h : (normalizedNative r).into_repr_c = .error ()) :
    (call_result_cb r).calls =
      [{ error_code := (ffi_result r).1.1, description := some fallbackBytes }] ∧
    fallbackBytes ≠ [] ∧ fallbackBytes.getLast? = some 0 := by
  refine ⟨?_, by decide, by decide⟩
  simp only [NativeResult.into_repr_c, normalizedNative] at h
  by_cases hm : 0 ∈ utf8Bytes (ffi_result r).1.2
  · simp only [call_result_cb, NativeResult.into_repr_c]
    simp [hm]
  · simp [hm] at h

/-- C10 witness: a concrete error with an embedded nul byte in its display
string makes the conversion fail and exercises the fallback buffer. -/
theorem c10_fallback_nul_terminated_witness :
    (normalizedNative (α := Unit) (.error nulErr)).into_repr_c = .error () ∧
    ((call_result_cb (α := Unit) (.error nulErr)).calls =
      [{ error_code := (ffi_result (α := Unit) (.error nulErr)).1.1,
         description := some fallbackBytes }] ∧
     fallbackBytes ≠ [] ∧ fallbackBytes.getLast? = some 0) :=
  ⟨rfl, c10_fallback_nul_terminated Unit (.error nulErr) rfl⟩
